import Mathlib

/-!
Shallow embedding of the Arduino8088 python3 client
(`src/client/python3/client.py`), class `Arduino8088Client`, and proofs
about its command/response protocol engine.

Modelling conventions:
  * `bytes`/`bytearray` values are `List Nat` with every element < 256.
  * Python exceptions are the `error` side of `Except PyExc`.
  * Transport reads are modelled by passing the list of bytes the serial
    port actually yielded (`self.fd.read(n)` may return fewer than `n`
    bytes when the 1-second timeout elapses).
  * Side effects other than the return value (the `time.sleep(0.11)` call
    and the `self.fd.flush()` call in `_receive_n`, and the bytes written
    by `self.fd.write` in `_send_command`) are returned as explicit traces.
  * The `debug` printing to `stderr` has no effect on any result or on the
    serial port and is omitted.
-/

deriving instance DecidableEq for Except

namespace Arduino8088Client

/-- Python exceptions that the client code can raise: the `assert` in
`_send_command` (`AssertionError`), `len(None)` (`TypeError`),
indexing past the end of a list (`IndexError`), and
`int.to_bytes` on an out-of-range value (`OverflowError`). -/
inductive PyExc
  | assertionError
  | typeError
  | indexError
  | overflowError
deriving DecidableEq

/-- Side effects of `_receive_n` beyond its return value: `time.sleep`
(argument in milliseconds; the source sleeps `0.11` seconds = 110 ms) and
the call `self.fd.flush()`.  Note that pyserial's `Serial.flush()` waits
until all *output* data is written; it does not discard input. -/
inductive Effect
  | sleepMs (ms : Nat)
  | fdFlush
deriving DecidableEq

/-- The `Command` enum of `Arduino8088Client`, in source order. -/
inductive Command
  | CmdNone
  | CmdVersion
  | CmdReset
  | CmdLoad
  | CmdCycle
  | CmdReadAddress
  | CmdReadStatus
  | CmdRead8288Command
  | CmdRead8288Control
  | CmdReadDataBus
  | CmdWriteDataBus
  | CmdFinalize
  | CmdBeginStore
  | CmdStore
  | CmdQueueLen
  | CmdQueueBytes
  | CmdWritePin
  | CmdReadPin
  | CmdGetProgramState
  | CmdLastError
  | CmdGetCycleStatus
  | CmdInvalid
deriving DecidableEq

/-- First component of each enum value: the opcode byte. -/
def Command.opcode : Command → Nat
  | .CmdNone => 0x00
  | .CmdVersion => 0x01
  | .CmdReset => 0x02
  | .CmdLoad => 0x03
  | .CmdCycle => 0x04
  | .CmdReadAddress => 0x05
  | .CmdReadStatus => 0x06
  | .CmdRead8288Command => 0x07
  | .CmdRead8288Control => 0x08
  | .CmdReadDataBus => 0x09
  | .CmdWriteDataBus => 0x0A
  | .CmdFinalize => 0x0B
  | .CmdBeginStore => 0x0C
  | .CmdStore => 0x0D
  | .CmdQueueLen => 0x0E
  | .CmdQueueBytes => 0x0F
  | .CmdWritePin => 0x10
  | .CmdReadPin => 0x11
  | .CmdGetProgramState => 0x12
  | .CmdLastError => 0x13
  | .CmdGetCycleStatus => 0x14
  | .CmdInvalid => 0x15

/-- Second component of each enum value: the required outbound payload
length in bytes. -/
def Command.payloadLen : Command → Nat
  | .CmdLoad => 28
  | .CmdWriteDataBus => 1
  | .CmdWritePin => 2
  | .CmdReadPin => 1
  | _ => 0

/-- All members of the `Command` enum, in declaration order. -/
def Command.all : List Command :=
  [.CmdNone, .CmdVersion, .CmdReset, .CmdLoad, .CmdCycle, .CmdReadAddress,
   .CmdReadStatus, .CmdRead8288Command, .CmdRead8288Control, .CmdReadDataBus,
   .CmdWriteDataBus, .CmdFinalize, .CmdBeginStore, .CmdStore, .CmdQueueLen,
   .CmdQueueBytes, .CmdWritePin, .CmdReadPin, .CmdGetProgramState,
   .CmdLastError, .CmdGetCycleStatus, .CmdInvalid]

/-- `Arduino8088Client._send_command(self, command, data)`.
The first component is the Python return value (`Bool`) or the exception
raised; the second component is the trace of bytes written to the serial
port, in order.  The source writes the opcode byte
(`command.value[0].to_bytes(1, 'big')`, one byte since every opcode is
at most 0x15) *before* evaluating the `assert`.  The assert expression is
`(data is None and command.value[1] == 0) or len(data) == command.value[1]`:
when `data is None` and the declared length is nonzero, Python evaluates
`len(None)` and raises `TypeError`; when `data` is a byte string of the
wrong length, the assert fails with `AssertionError`.  On success the
payload bytes are written after the opcode and `True` is returned. -/
def _send_command (command : Command) (data : Option (List Nat)) :
    Except PyExc Bool × List Nat :=
  let written := [command.opcode]
  match data with
  | none =>
      if command.payloadLen = 0 then (Except.ok true, written)
      else (Except.error PyExc.typeError, written)
  | some d =>
      if d.length = command.payloadLen then (Except.ok true, written ++ d)
      else (Except.error PyExc.assertionError, written)

/-- `Arduino8088Client._receive_n(self, n)`.
`rc` is the list of bytes that `self.fd.read(n)` actually yielded (at most
`n`; possibly fewer on timeout, in which case `n` plays no further role —
the source never compares `len(rc)` with `n`).  The source then evaluates
`rc[-1]`, which raises `IndexError` on an empty list; `0x01` returns the
whole list `rc`; `0x00` returns `None`; any other value sleeps 0.11 s,
calls `self.fd.flush()` and returns `None`.  The second component is the
trace of side effects. -/
def _receive_n (n : Nat) (rc : List Nat) :
    Except PyExc (Option (List Nat)) × List Effect :=
  match rc.getLast? with
  | none => (Except.error PyExc.indexError, [])
  | some last =>
      if last = 0x01 then (Except.ok (some rc), [])
      else if last = 0x00 then (Except.ok none, [])
      else (Except.ok none, [Effect.sleepMs 110, Effect.fdFlush])

/-- Python list indexing `xs[i]` for a non-negative index: `IndexError`
when `i` is out of range. -/
def pyIndex (xs : List Nat) (i : Nat) : Except PyExc Nat :=
  match xs.get? i with
  | some v => Except.ok v
  | none => Except.error PyExc.indexError

/-- `int.to_bytes(2, 'little')`: the two-byte little-endian encoding, or
`OverflowError` when the value does not fit (the Python call also raises
on negative values, which `Nat` excludes by construction). -/
def to_bytes_2_le (v : Nat) : Except PyExc (List Nat) :=
  if v < 65536 then Except.ok [v % 256, v / 256 % 256]
  else Except.error PyExc.overflowError

/-- The serialization section of `Arduino8088Client.cmd_load`: the 14
register values are appended as 2-byte little-endian fields in the order
AX, BX, CX, DX, SS, SP, FLAGS, IP, CS, DS, ES, BP, SI, DI. -/
def cmd_load_encode (AX BX CX DX SS SP FLAGS IP CS DS ES BP SI DI : Nat) :
    Except PyExc (List Nat) := do
  let a ← to_bytes_2_le AX
  let b ← to_bytes_2_le BX
  let c ← to_bytes_2_le CX
  let d ← to_bytes_2_le DX
  let e ← to_bytes_2_le SS
  let f ← to_bytes_2_le SP
  let g ← to_bytes_2_le FLAGS
  let h ← to_bytes_2_le IP
  let i ← to_bytes_2_le CS
  let j ← to_bytes_2_le DS
  let k ← to_bytes_2_le ES
  let l ← to_bytes_2_le BP
  let m ← to_bytes_2_le SI
  let o ← to_bytes_2_le DI
  Except.ok (a ++ b ++ c ++ d ++ e ++ f ++ g ++ h ++ i ++ j ++ k ++ l ++ m ++ o)

/-- `Arduino8088Client.cmd_reset`, given the raw bytes the transport
yields for the reply.  `Except.ok none` corresponds to the
`return None` branch taken when `_send_command(...) == False`. -/
def cmd_reset (raw : List Nat) : Except PyExc (Option Bool) :=
  match (_send_command Command.CmdReset none).1 with
  | Except.error e => Except.error e
  | Except.ok sent =>
      if sent = false then Except.ok none
      else
        match (_receive_n 1 raw).1 with
        | Except.error e => Except.error e
        | Except.ok r => Except.ok (some (r == some [0x01]))

/-- `Arduino8088Client.cmd_version`, given the raw bytes the transport
yields for the reply: receives 9 bytes, then returns
`(''.join(chr(c) for c in reply[0:7]), reply[7])`. -/
def cmd_version (raw : List Nat) : Except PyExc (Option (String × Nat)) :=
  match (_send_command Command.CmdVersion none).1 with
  | Except.error e => Except.error e
  | Except.ok sent =>
      if sent = false then Except.ok none
      else
        match (_receive_n 9 raw).1 with
        | Except.error e => Except.error e
        | Except.ok none => Except.ok none
        | Except.ok (some reply) =>
            match pyIndex reply 7 with
            | Except.error e => Except.error e
            | Except.ok ver =>
                Except.ok (some (String.mk ((reply.take 7).map Char.ofNat), ver))

/-- `Arduino8088Client.cmd_read_address`, given the raw bytes the
transport yields for the reply: receives 4 bytes, then returns
`rc[0] | (rc[1] << 8) | (rc[2] << 16)`. -/
def cmd_read_address (raw : List Nat) : Except PyExc (Option Nat) :=
  match (_send_command Command.CmdReadAddress none).1 with
  | Except.error e => Except.error e
  | Except.ok sent =>
      if sent = false then Except.ok none
      else
        match (_receive_n 4 raw).1 with
        | Except.error e => Except.error e
        | Except.ok none => Except.ok none
        | Except.ok (some rc) =>
            match pyIndex rc 0, pyIndex rc 1, pyIndex rc 2 with
            | Except.ok b0, Except.ok b1, Except.ok b2 =>
                Except.ok (some (b0 ||| (b1 <<< 8) ||| (b2 <<< 16)))
            | Except.error e, _, _ => Except.error e
            | _, Except.error e, _ => Except.error e
            | _, _, Except.error e => Except.error e

/-- `Arduino8088Client.cmd_store`, given the raw bytes the transport
yields for the reply: receives 29 bytes, then for `i in range(0, 14)`
appends `(rc[i * 2 + 1] << 8) | rc[i * 2 + 0]`. -/
def cmd_store (raw : List Nat) : Except PyExc (Option (List Nat)) :=
  match (_send_command Command.CmdStore none).1 with
  | Except.error e => Except.error e
  | Except.ok sent =>
      if sent = false then Except.ok none
      else
        match (_receive_n 29 raw).1 with
        | Except.error e => Except.error e
        | Except.ok none => Except.ok none
        | Except.ok (some rc) =>
            match (List.range 14).mapM (fun i => do
                let hi ← pyIndex rc (i * 2 + 1)
                let lo ← pyIndex rc (i * 2)
                Except.ok ((hi <<< 8) ||| lo)) with
            | Except.error e => Except.error e
            | Except.ok out => Except.ok (some out)

end Arduino8088Client

open Arduino8088Client

/-- C1 (counterexample): sending `CmdReset` with the wrong-length payload
`[0x00]` does raise the usage error, but the opcode byte `0x02` has
already been written to the transport at that point, so the claim that
"no bytes at all — not even the opcode byte — are written" is false. -/
theorem send_mismatch_opcode_already_written :
    (([0x00] : List Nat)).length ≠ Command.CmdReset.payloadLen ∧
    _send_command Command.CmdReset (some [0x00]) =
      (Except.error PyExc.assertionError, [0x02]) ∧
    (_send_command Command.CmdReset (some [0x00])).2 ≠ [] := by
  decide

/-- C1 (amended): for every command, a payload whose length differs from
the table-declared length makes `_send_command` fail with the usage error
(`AssertionError`) after exactly the opcode byte has been written and
before any payload byte is written. -/
theorem send_mismatch_errors_after_opcode (command : Command) (d : List Nat)
    (h : d.length ≠ command.payloadLen) :
    _send_command command (some d) =
      (Except.error PyExc.assertionError, [command.opcode]) := by
  unfold _send_command
  simp [h]

/-- Witness for the amended C1 at a concrete mismatched input. -/
theorem send_mismatch_errors_after_opcode_w :
    _send_command Command.CmdWriteDataBus (some [0x01, 0x02]) =
      (Except.error PyExc.assertionError, [Command.CmdWriteDataBus.opcode]) :=
  send_mismatch_errors_after_opcode Command.CmdWriteDataBus [0x01, 0x02] (by decide)

/-- C2 (counterexample): the device-rejected reply `[0x00]` and the
out-of-sync reply `[0x7F]` produce the same return value (`None`), so the
two failure kinds are not distinguishable in the operation's result; and a
successful reply is returned whole, status byte included, not as the
preceding bytes only. -/
theorem receive_collapses_reject_and_outofsync :
    (_receive_n 1 [0x00]).1 = (_receive_n 1 [0x7F]).1 ∧
    (_receive_n 2 [0x12, 0x01]).1 = Except.ok (some [0x12, 0x01]) := by
  decide

/-- C2 (amended): `_receive_n` dispatches on the final byte of the raw
reply: `0x01` yields the entire reply list (status byte included) as the
success value, while `0x00` (device rejected) and every other value (out
of sync) both yield `None`, a single collapsed failure result; no
distinct timeout error value exists. -/
theorem receive_dispatch_on_last_byte (n : Nat) (rc : List Nat) (last : Nat)
    (h : rc.getLast? = some last) :
    (last = 0x01 → (_receive_n n rc).1 = Except.ok (some rc)) ∧
    (last ≠ 0x01 → (_receive_n n rc).1 = Except.ok none) := by
  unfold _receive_n
  rw [h]
  constructor
  · intro he
    simp [he]
  · intro hne
    by_cases h0 : last = 0x00 <;> simp [hne, h0]

/-- Witness for the amended C2 at a concrete out-of-sync reply. -/
theorem receive_dispatch_on_last_byte_w :
    ((0x05 : Nat) = 0x01 → (_receive_n 2 [0xAA, 0x05]).1 = Except.ok (some [0xAA, 0x05])) ∧
    ((0x05 : Nat) ≠ 0x01 → (_receive_n 2 [0xAA, 0x05]).1 = Except.ok none) :=
  receive_dispatch_on_last_byte 2 [0xAA, 0x05] 0x05 (by decide)

/-- C4 (counterexample): the `Command` enumeration has 22 members
(opcodes 0x00 through 0x15), not 21 as claimed. -/
theorem command_table_has_22_entries :
    Command.all.length = 22 ∧ Command.all.length ≠ 21 := by
  decide

/-- C4 (amended): the command table is a closed static enumeration of
exactly 22 commands including the explicit `CmdInvalid` sentinel; opcodes
are pairwise distinct and lie in 0x00–0x15, and every declared outbound
payload length is one of 0, 1, 2 or 28 bytes. -/
theorem command_table_static_shape :
    Command.all.length = 22 ∧
    (∀ c : Command, c ∈ Command.all) ∧
    (Command.all.map Command.opcode).Nodup ∧
    (Command.all.all fun c =>
      decide (c.opcode ≤ 0x15) &&
      (c.payloadLen == 0 || c.payloadLen == 1 || c.payloadLen == 2 ||
       c.payloadLen == 28)) = true ∧
    Command.CmdInvalid ∈ Command.all := by
  refine ⟨by decide, ?_, by decide, by decide, by decide⟩
  intro c
  cases c <;> decide

/-- C5: `cmd_version` on the reply bytes
`[0x41,0x72,0x64,0x75,0x69,0x38,0x38,0x07,0x01]` yields the name
`"Ardui88"` (first 7 bytes as ASCII) and version number 7 (8th byte). -/
theorem version_parse_example :
    cmd_version [0x41, 0x72, 0x64, 0x75, 0x69, 0x38, 0x38, 0x07, 0x01] =
      Except.ok (some ("Ardui88", 7)) := by
  decide

/-- C6: `cmd_read_address` parses its reply as the 24-bit address
`byte0 ||| byte1 <<< 8 ||| byte2 <<< 16`; in particular the reply
`[0x34,0x12,0x00,0x01]` yields `0x001234`. -/
theorem read_address_parse (b0 b1 b2 : Nat) :
    cmd_read_address [b0, b1, b2, 0x01] =
      Except.ok (some (b0 ||| (b1 <<< 8) ||| (b2 <<< 16))) ∧
    cmd_read_address [0x34, 0x12, 0x00, 0x01] = Except.ok (some 0x001234) :=
  ⟨rfl, by decide⟩

/-- C7 (code evaluation at the failing input): on the out-of-sync reply
`[0x7F]`, `_receive_n` returns `None` after sleeping 110 ms and calling
`self.fd.flush()` — pyserial's `flush()` waits until pending *output* is
written and discards nothing from the input buffer, so no input-side
discard occurs, and the returned `None` is the same value the
device-rejected path returns. -/
theorem outofsync_sleep_and_fdflush :
    _receive_n 1 [0x7F] = (Except.ok none, [Effect.sleepMs 110, Effect.fdFlush]) := by
  decide

/-- C8 (counterexample): with an expected reply length of 9 (as used by
`cmd_version`), a transport that yields only the single byte `[0x01]`
makes `_receive_n` return that short data as a successful reply instead
of failing with any timeout error. -/
theorem short_read_interpreted_as_reply :
    (([0x01] : List Nat)).length < 9 ∧
    (_receive_n 9 [0x01]).1 = Except.ok (some [0x01]) := by
  decide

/-- C8 (amended): when the transport yields fewer than the expected `n`
bytes, `_receive_n` raises an uncaught `IndexError` if nothing arrived,
and otherwise interprets the short data exactly like a full reply,
dispatching on its last byte; no timeout error is ever produced. -/
theorem short_read_no_timeout_error (n : Nat) (rc : List Nat)
    (hshort : rc.length < n) :
    (rc = [] → _receive_n n rc = (Except.error PyExc.indexError, [])) ∧
    ∀ last, rc.getLast? = some last →
      (_receive_n n rc).1 = Except.ok (if last = 0x01 then some rc else none) := by
  constructor
  · intro he
    subst he
    rfl
  · intro last h
    unfold _receive_n
    rw [h]
    by_cases h1 : last = 0x01 <;> by_cases h0 : last = 0x00 <;> simp_all

/-- Witness for the amended C8 at a concrete short read. -/
theorem short_read_no_timeout_error_w :
    (([0x00] : List Nat) = [] → _receive_n 3 [0x00] = (Except.error PyExc.indexError, [])) ∧
    (∀ last, ([0x00] : List Nat).getLast? = some last →
      (_receive_n 3 [0x00]).1 = Except.ok (if last = 0x01 then some [0x00] else none)) :=
  short_read_no_timeout_error 3 [0x00] (by decide)

/-- C9: `_send_command` returns `True` on every execution that does not
raise an exception, so in the typed operations the branch taken when
`_send_command(...) == False` (returning `None` before reading a reply,
as in `cmd_reset`) is unreachable dead code. -/
theorem send_command_returns_true (command : Command) (data : Option (List Nat))
    (b : Bool) (h : (_send_command command data).1 = Except.ok b) :
    b = true ∧ ∀ raw : List Nat, cmd_reset raw ≠ Except.ok none := by
  constructor
  · unfold _send_command at h
    cases data with
    | none =>
        by_cases h0 : command.payloadLen = 0 <;> simp [h0] at h <;> simp_all
    | some d =>
        by_cases h0 : d.length = command.payloadLen <;> simp [h0] at h <;> simp_all
  · intro raw
    have hred : cmd_reset raw =
        match (_receive_n 1 raw).1 with
        | Except.error e => Except.error e
        | Except.ok r => Except.ok (some (r == some [0x01])) := rfl
    rw [hred]
    cases (_receive_n 1 raw).1 <;> simp

/-- Witness for C9 at a concrete successful send. -/
theorem send_command_returns_true_w :
    true = true ∧ ∀ raw : List Nat, cmd_reset raw ≠ Except.ok none :=
  send_command_returns_true Command.CmdVersion none true (by decide)

/-- C10: when the transport returns zero bytes (a complete read timeout),
`_receive_n` evaluates `rc[-1]` on an empty list and raises `IndexError`
instead of returning any structured failure value. -/
theorem empty_read_raises_indexerror (n : Nat) :
    _receive_n n [] = (Except.error PyExc.indexError, []) :=
  rfl

/-- Reduction of `to_bytes_2_le` on an in-range value. -/
theorem to_bytes_2_le_of_lt (v : Nat) (h : v < 65536) :
    to_bytes_2_le v = Except.ok [v % 256, v / 256 % 256] := by
  simp [to_bytes_2_le, h]

/-- Monadic bind on a successful `Except` computation reduces. -/
theorem except_ok_bind {ε α β : Type} (a : α) (f : α → Except ε β) :
    (Except.ok a : Except ε α) >>= f = f a :=
  rfl

/-- Reassembling a 16-bit value from its little-endian bytes the way
`cmd_store` does recovers the value. -/
theorem recompose (v : Nat) (h : v < 65536) :
    ((v / 256 % 256) <<< 8) ||| (v % 256) = v := by
  have hd : v / 256 < 256 := by omega
  have hm : v % 256 < 2 ^ 8 := by omega
  calc ((v / 256 % 256) <<< 8) ||| (v % 256)
      = ((v / 256) <<< 8) ||| (v % 256) := by rw [Nat.mod_eq_of_lt hd]
    _ = (2 ^ 8 * (v / 256)) ||| (v % 256) := by rw [Nat.shiftLeft_eq, Nat.mul_comm]
    _ = 2 ^ 8 * (v / 256) + v % 256 := (Nat.mul_add_lt_is_or hm _).symm
    _ = v := by omega

/-- C3: for all 14 register values in 0x0000–0xFFFF, encoding through
`cmd_load`'s serialization (2-byte little-endian, order AX, BX, CX, DX,
SS, SP, FLAGS, IP, CS, DS, ES, BP, SI, DI) yields 28 bytes, and decoding
the resulting reply through `cmd_store` (pairwise little-endian, same
order) recovers the original 14 values exactly. -/
theorem load_store_roundtrip (AX BX CX DX SS SP FLAGS IP CS DS ES BP SI DI : Nat)
    (hAX : AX < 65536) (hBX : BX < 65536) (hCX : CX < 65536) (hDX : DX < 65536)
    (hSS : SS < 65536) (hSP : SP < 65536) (hFLAGS : FLAGS < 65536) (hIP : IP < 65536)
    (hCS : CS < 65536) (hDS : DS < 65536) (hES : ES < 65536) (hBP : BP < 65536)
    (hSI : SI < 65536) (hDI : DI < 65536) :
    ∃ bytes : List Nat,
      cmd_load_encode AX BX CX DX SS SP FLAGS IP CS DS ES BP SI DI = Except.ok bytes ∧
      bytes.length = 28 ∧
      cmd_store (bytes ++ [0x01]) =
        Except.ok (some [AX, BX, CX, DX, SS, SP, FLAGS, IP, CS, DS, ES, BP, SI, DI]) := by
  refine ⟨[AX % 256, AX / 256 % 256, BX % 256, BX / 256 % 256,
           CX % 256, CX / 256 % 256, DX % 256, DX / 256 % 256,
           SS % 256, SS / 256 % 256, SP % 256, SP / 256 % 256,
           FLAGS % 256, FLAGS / 256 % 256, IP % 256, IP / 256 % 256,
           CS % 256, CS / 256 % 256, DS % 256, DS / 256 % 256,
           ES % 256, ES / 256 % 256, BP % 256, BP / 256 % 256,
           SI % 256, SI / 256 % 256, DI % 256, DI / 256 % 256], ?_, rfl, ?_⟩
  · simp only [cmd_load_encode, to_bytes_2_le_of_lt AX hAX, to_bytes_2_le_of_lt BX hBX,
      to_bytes_2_le_of_lt CX hCX, to_bytes_2_le_of_lt DX hDX, to_bytes_2_le_of_lt SS hSS,
      to_bytes_2_le_of_lt SP hSP, to_bytes_2_le_of_lt FLAGS hFLAGS,
      to_bytes_2_le_of_lt IP hIP, to_bytes_2_le_of_lt CS hCS, to_bytes_2_le_of_lt DS hDS,
      to_bytes_2_le_of_lt ES hES, to_bytes_2_le_of_lt BP hBP, to_bytes_2_le_of_lt SI hSI,
      to_bytes_2_le_of_lt DI hDI, except_ok_bind]
    rfl
  · have h1 : cmd_store
        ([AX % 256, AX / 256 % 256, BX % 256, BX / 256 % 256,
          CX % 256, CX / 256 % 256, DX % 256, DX / 256 % 256,
          SS % 256, SS / 256 % 256, SP % 256, SP / 256 % 256,
          FLAGS % 256, FLAGS / 256 % 256, IP % 256, IP / 256 % 256,
          CS % 256, CS / 256 % 256, DS % 256, DS / 256 % 256,
          ES % 256, ES / 256 % 256, BP % 256, BP / 256 % 256,
          SI % 256, SI / 256 % 256, DI % 256, DI / 256 % 256] ++ [0x01]) =
        Except.ok (some
          [((AX / 256 % 256) <<< 8) ||| (AX % 256), ((BX / 256 % 256) <<< 8) ||| (BX % 256),
           ((CX / 256 % 256) <<< 8) ||| (CX % 256), ((DX / 256 % 256) <<< 8) ||| (DX % 256),
           ((SS / 256 % 256) <<< 8) ||| (SS % 256), ((SP / 256 % 256) <<< 8) ||| (SP % 256),
           ((FLAGS / 256 % 256) <<< 8) ||| (FLAGS % 256),
           ((IP / 256 % 256) <<< 8) ||| (IP % 256),
           ((CS / 256 % 256) <<< 8) ||| (CS % 256), ((DS / 256 % 256) <<< 8) ||| (DS % 256),
           ((ES / 256 % 256) <<< 8) ||| (ES % 256), ((BP / 256 % 256) <<< 8) ||| (BP % 256),
           ((SI / 256 % 256) <<< 8) ||| (SI % 256),
           ((DI / 256 % 256) <<< 8) ||| (DI % 256)]) := rfl
    rw [h1, recompose AX hAX, recompose BX hBX, recompose CX hCX, recompose DX hDX,
      recompose SS hSS, recompose SP hSP, recompose FLAGS hFLAGS, recompose IP hIP,
      recompose CS hCS, recompose DS hDS, recompose ES hES, recompose BP hBP,
      recompose SI hSI, recompose DI hDI]

/-- Witness for C3 at a concrete register snapshot. -/
theorem load_store_roundtrip_w :
    ∃ bytes : List Nat,
      cmd_load_encode 0x1234 0xFFFF 3 4 5 6 7 8 9 10 11 12 13 0xABCD = Except.ok bytes ∧
      bytes.length = 28 ∧
      cmd_store (bytes ++ [0x01]) =
        Except.ok (some [0x1234, 0xFFFF, 3, 4, 5, 6, 7, 8, 9, 10, 11, 12, 13, 0xABCD]) :=
  load_store_roundtrip 0x1234 0xFFFF 3 4 5 6 7 8 9 10 11 12 13 0xABCD
    (by decide) (by decide) (by decide) (by decide) (by decide) (by decide) (by decide)
    (by decide) (by decide) (by decide) (by decide) (by decide) (by decide) (by decide)
